import Mathlib

/-!
Shallow embedding of the KR Property backend server (`fixed-server.js`).

The handlers are modelled as pure functions over explicit store states.
Database tables become lists of row structures together with a `nextId`
counter (the `SERIAL` primary key).  The non-atomic read-then-insert span of
the dedup handlers is modelled by giving a handler two store states: the
state its pre-insert lookup observes (`stLookup`) and the state its insert
executes against (`stInsert`); a sequential, race-free call passes the same
state twice.  Fallible store operations return `Except StoreErr`; the
SendGrid transport is a function from a sender configuration to
`Except TransportErr Unit`.  JavaScript truthiness on request fields
(absent / empty string) is modelled explicitly.
-/

/-- JS truthiness of an optional string field: `undefined`/`null` and the
empty string are falsy. Models `if (!x)` checks on request body fields. -/
def jsTruthy : Option String → Bool
  | none => false
  | some s => !(s == "")

/-- Models the JS expression `x || d` for a string `x` and default `d`. -/
def jsOrStr : Option String → String → String
  | none, d => d
  | some s, d => if s == "" then d else s

/-- Models the JS expression `x || null` for a string field. -/
def jsOrNull : Option String → Option String
  | none => none
  | some s => if s == "" then none else some s

/-- Models `String.prototype.trim()`: strip whitespace from both ends
(implemented on the character list so that it evaluates by reduction). -/
def jsTrim (s : String) : String :=
  ⟨((s.toList.dropWhile Char.isWhitespace).reverse.dropWhile
      Char.isWhitespace).reverse⟩

/-- A character admissible by the `[^\s@]` character class of the server
email regular expression: neither whitespace nor `@`. -/
def validEmailChar (c : Char) : Bool := !c.isWhitespace && !(c == '@')

/-- The domain part of the regex `[^\s@]+\.[^\s@]+`: all characters
admissible and a dot strictly inside (nonempty part before and after). -/
def domainOk (cs : List Char) : Bool :=
  cs.all validEmailChar && ((cs.drop 1).dropLast.contains '.')

/-- Models `/^[^\s@]+@[^\s@]+\.[^\s@]+$/.test s`: exactly one `@`, a
nonempty admissible local part, and an admissible domain with an interior
dot. -/
def emailRegexTest (s : String) : Bool :=
  match s.toList.splitOn '@' with
  | [l, d] => !l.isEmpty && l.all validEmailChar && domainOk d
  | _ => false

/-- Store-level failures: the uniqueness constraint rejecting an insert,
or the store being unreachable. -/
inductive StoreErr where
  | constraintViolation
  | storeUnavailable
deriving Repr, DecidableEq

/-- A SendGrid transport error (`{code, message}` of the thrown error). -/
structure TransportErr where
  code : Nat
  message : String
deriving Repr, DecidableEq

/-! ## Newsletter subscriptions (`POST /api/newsletter`) -/

/-- A row of the `newsletter_subscriptions` table. -/
structure NewsRow where
  id : Nat
  email : String
  createdAt : Nat
deriving Repr, DecidableEq

/-- The `newsletter_subscriptions` table with its serial-id counter. -/
structure NewsState where
  rows : List NewsRow
  nextId : Nat
deriving Repr, DecidableEq

/-- `db.select().from(newsletterSubscriptions).where(eq(email, e))`. -/
def newsSelect (st : NewsState) (e : String) : List NewsRow :=
  st.rows.filter (fun r => r.email == e)

/-- `db.insert(newsletterSubscriptions).values({email: e}).returning()`:
the `UNIQUE` constraint on `email` rejects a duplicate. -/
def newsInsert (st : NewsState) (e : String) (now : Nat) :
    Except StoreErr (NewsState × NewsRow) :=
  if st.rows.any (fun r => r.email == e) then .error .constraintViolation
  else
    let r : NewsRow := ⟨st.nextId, e, now⟩
    .ok (⟨st.rows ++ [r], st.nextId + 1⟩, r)

/-- The observable part of a `/api/newsletter` JSON response. -/
structure NewsResponse where
  status : Nat
  success : Bool
  id : Option Nat
deriving Repr, DecidableEq

/-- The `POST /api/newsletter` handler.  `stLookup` is the table state its
pre-insert lookup observes, `stInsert` the state its insert runs against
(equal in a race-free sequential call).  A `ConstraintViolation` thrown by
the insert propagates to the outer catch, which answers HTTP 500. -/
def newsletterHandler (email : Option String) (dbAvail : Bool)
    (stLookup stInsert : NewsState) (now : Nat) : NewsResponse × NewsState :=
  match email with
  | none => (⟨400, false, none⟩, stInsert)
  | some e0 =>
    if jsTrim e0 == "" then (⟨400, false, none⟩, stInsert)
    else
      let e := jsTrim e0
      if !emailRegexTest e then (⟨400, false, none⟩, stInsert)
      else if !dbAvail then (⟨500, false, none⟩, stInsert)
      else
        match newsSelect stLookup e with
        | r :: _ => (⟨200, true, some r.id⟩, stInsert)
        | [] =>
          match newsInsert stInsert e now with
          | .ok (st2, r) => (⟨201, true, some r.id⟩, st2)
          | .error _ => (⟨500, false, none⟩, stInsert)

/-! ## Pending emails (`pending_emails` table, the retry queue) -/

/-- A row of the `pending_emails` table (a durably queued notification). -/
structure PendingRow where
  id : Nat
  recipientEmail : String
  recipientName : Option String
  subject : String
  htmlContent : String
  emailType : String
  status : String
  errorDetails : Option String
  attempts : Nat
  createdAt : Nat
  sentAt : Option Nat
deriving Repr, DecidableEq

/-- The `pending_emails` table with its serial-id counter. -/
structure PendingState where
  rows : List PendingRow
  nextId : Nat
deriving Repr, DecidableEq

/-- `db.insert(pendingEmails).values({...})`: the insert omits `attempts`
and `sentAt`, so the column defaults `attempts = 0` and `sentAt = NULL`
apply; it fails only when the store is unreachable (`fault`). -/
def pendingInsert (fault : Bool) (st : PendingState)
    (recipientEmail : String) (recipientName : Option String)
    (subject htmlContent emailType status : String)
    (errorDetails : Option String) (now : Nat) :
    Except StoreErr (PendingState × PendingRow) :=
  if fault then .error .storeUnavailable
  else
    let r : PendingRow := ⟨st.nextId, recipientEmail, recipientName, subject,
      htmlContent, emailType, status, errorDetails, 0, now, none⟩
    .ok (⟨st.rows ++ [r], st.nextId + 1⟩, r)

/-! ## Deal sourcing waitlist (`POST /api/send-deal-lead`) -/

/-- A row of the `deal_sourcing_waitlist` table. -/
structure LeadRow where
  id : Nat
  name : String
  email : String
  phone : Option String
  investmentAmount : String
  experienceLevel : String
  createdAt : Nat
deriving Repr, DecidableEq

/-- The `deal_sourcing_waitlist` table with its serial-id counter. -/
structure LeadState where
  rows : List LeadRow
  nextId : Nat
deriving Repr, DecidableEq

/-- The request body of `POST /api/send-deal-lead`. -/
structure LeadReq where
  name : Option String
  email : Option String
  phone : Option String
  investmentAmount : Option String
  experienceLevel : Option String
deriving Repr, DecidableEq

/-- `db.select().from(dealSourcingWaitlist).where(eq(email, e))`. -/
def leadSelect (st : LeadState) (e : String) : List LeadRow :=
  st.rows.filter (fun r => r.email == e)

/-- `db.insert(dealSourcingWaitlist).values({...}).returning()`: fails with
`storeUnavailable` on a store fault, with `constraintViolation` when the
`UNIQUE` constraint on `email` rejects the row. -/
def leadInsert (fault : Bool) (st : LeadState) (name email : String)
    (phone : Option String) (investmentAmount experienceLevel : String)
    (now : Nat) : Except StoreErr (LeadState × LeadRow) :=
  if fault then .error .storeUnavailable
  else if st.rows.any (fun r => r.email == email) then .error .constraintViolation
  else
    let r : LeadRow := ⟨st.nextId, name, email, phone, investmentAmount,
      experienceLevel, now⟩
    .ok (⟨st.rows ++ [r], st.nextId + 1⟩, r)

/-- The observable part of a `/api/send-deal-lead` JSON response.
`emailSent` is `some b` only for the 201 created response, whose `data`
carries the flag; the other responses do not include it. -/
structure LeadResponse where
  status : Nat
  success : Bool
  id : Option Nat
  emailSent : Option Bool
deriving Repr, DecidableEq

/-- The record-creation (data-ingestion) step of `POST /api/send-deal-lead`,
up to but excluding the confirmation email: validation, lookup on
`stLookup`, then insert against `stInsert`. -/
inductive IngestOutcome where
  /-- a required field is missing or the email is malformed (HTTP 400) -/
  | invalid
  /-- `db` is not available (HTTP 500) -/
  | noDb
  /-- the email is already on the waitlist: idempotent 200 with that row -/
  | existing (r : LeadRow)
  /-- a new row was inserted (HTTP 201, then the confirmation email) -/
  | created (st2 : LeadState) (r : LeadRow)
  /-- the insert threw (store fault or uniqueness violation): outer catch,
  HTTP 500 -/
  | insertFailed
deriving Repr, DecidableEq

/-- Validation and store access of `POST /api/send-deal-lead`
(lines 808-872 of `fixed-server.js`). -/
def leadIngestStep (req : LeadReq) (dbAvail fault : Bool)
    (stLookup stInsert : LeadState) (now : Nat) : IngestOutcome :=
  if !(jsTruthy req.name && jsTruthy req.email && jsTruthy req.investmentAmount
      && jsTruthy req.experienceLevel) then .invalid
  else
    let e := jsTrim (req.email.getD "")
    if !emailRegexTest e then .invalid
    else if !dbAvail then .noDb
    else
      match leadSelect stLookup e with
      | r :: _ => .existing r
      | [] =>
        match leadInsert fault stInsert (jsTrim (req.name.getD "")) e
            ((jsOrNull req.phone).map jsTrim)
            (jsTrim (req.investmentAmount.getD ""))
            (jsTrim (req.experienceLevel.getD "")) now with
        | .ok (st2, r) => .created st2 r
        | .error _ => .insertFailed

/-- Result of a `POST /api/send-deal-lead` call: response, waitlist table
state, and `pending_emails` state (which this handler never touches). -/
structure LeadResult where
  resp : LeadResponse
  state : LeadState
  pending : PendingState
deriving Repr, DecidableEq

/-- Whether an `Except` transport result is a success. -/
def okB : Except TransportErr Unit → Bool
  | .ok _ => true
  | .error _ => false

/-- The `POST /api/send-deal-lead` handler.  After a successful insert it
attempts the confirmation email only when SendGrid is configured (`sg`);
a send failure (`sendRes = .error e`) is caught and only clears the
`emailSent` flag — the 201 success response is returned regardless, and
nothing is written to `pending_emails`. -/
def sendDealLead (req : LeadReq) (dbAvail fault : Bool)
    (stLookup stInsert : LeadState) (pending : PendingState)
    (sg : Bool) (sendRes : Except TransportErr Unit) (now : Nat) : LeadResult :=
  match leadIngestStep req dbAvail fault stLookup stInsert now with
  | .invalid => ⟨⟨400, false, none, none⟩, stInsert, pending⟩
  | .noDb => ⟨⟨500, false, none, none⟩, stInsert, pending⟩
  | .insertFailed => ⟨⟨500, false, none, none⟩, stInsert, pending⟩
  | .existing r => ⟨⟨200, true, some r.id, none⟩, stInsert, pending⟩
  | .created st2 r =>
    let emailSent := sg && okB sendRes
    ⟨⟨201, true, some r.id, some emailSent⟩, st2, pending⟩

/-! ## Delivery coordinator (sender-rotation loop of `POST /api/inflation-email`) -/

/-- A sender identity (`{from, name}` entry of `senderConfigs`). -/
structure SenderConfig where
  fromEmail : String
  displayName : String
deriving Repr, DecidableEq

/-- The fixed ordered sender list of `POST /api/inflation-email`. -/
def senderConfigs : List SenderConfig :=
  [⟨"info@kr-properties.co.uk", "KR Property Investments"⟩,
   ⟨"noreply@kr-properties.co.uk", "KR Property Investments"⟩,
   ⟨"hello@kr-properties.co.uk", "KR Property Investments"⟩]

/-- Observable outcome of the sender-rotation loop: the `emailSent` flag,
the number of `sgMail.send` calls performed, the last error recorded in
`emailError` (not cleared by a later success), and the senders actually
tried, in order. -/
structure DeliveryOutcome where
  sent : Bool
  attemptsTried : Nat
  lastError : Option TransportErr
  called : List SenderConfig
deriving Repr, DecidableEq

/-- The `for (const config of senderConfigs)` loop: try each sender in
order, `break` on the first success, record the error and `continue` on a
failure.  `n` counts calls made so far, `le` is the current `emailError`,
`cs` the senders already tried. -/
def deliverAux (t : SenderConfig → Except TransportErr Unit) :
    List SenderConfig → Nat → Option TransportErr → List SenderConfig →
    DeliveryOutcome
  | [], n, le, cs => ⟨false, n, le, cs⟩
  | c :: rest, n, le, cs =>
    match t c with
    | .ok _ => ⟨true, n + 1, le, cs ++ [c]⟩
    | .error e => deliverAux t rest (n + 1) (some e) (cs ++ [c])

/-- The delivery coordinator: walk the ordered sender list, stopping at the
first transport success. -/
def deliver (t : SenderConfig → Except TransportErr Unit)
    (senders : List SenderConfig) : DeliveryOutcome :=
  deliverAux t senders 0 none []

/-- The error component of a transport result, if any. -/
def errOf : Except TransportErr Unit → Option TransportErr
  | .ok _ => none
  | .error e => some e

/-! ## Notification composer (`emailContent` of `POST /api/inflation-email`) -/

/-- The `calculationData` object of an inflation-email request.  Numeric
fields are modelled by their rendered string forms (`toLocaleString()` /
`toFixed(2)` output); `none` models an absent field. -/
structure CalcData where
  originalValue : Option String
  todayValue : Option String
  lossInValue : Option String
  percentageIncrease : Option String
deriving Repr, DecidableEq

/-- The request body of `POST /api/inflation-email`. -/
structure InflReq where
  name : Option String
  email : Option String
  amount : Option String
  month : Option String
  year : Option String
  chartImage : Option String
  calculationData : Option CalcData
deriving Repr, DecidableEq

/-- Template interpolation of an optional value: JS renders the absent
value (`undefined`, from optional chaining) as the text `undefined`. -/
def renderOpt (v : Option String) : String := v.getD "undefined"

/-- Models `amount?.toLocaleString() || calculationData.originalValue?.toLocaleString()`. -/
def amountDisp (amount : Option String) (cd : CalcData) : String :=
  match amount with
  | some a => if a == "" then renderOpt cd.originalValue else a
  | none => renderOpt cd.originalValue

/-- The `chartImage ? ... : ""` section of the template. -/
def emailContentChart (chartImage : Option String) : String :=
  if jsTruthy chartImage then
    "\n<div style=\"margin: 30px 0;\">\n<h2 style=\"color: #008e6d; margin: 0 0 20px 0; font-size: 20px;\">📊 Visual Impact</h2>\n<div style=\"text-align: center; margin: 20px 0;\">\n<img src=\""
      ++ chartImage.getD ""
      ++ "\" alt=\"Inflation Impact Chart\" style=\"max-width: 100%; height: auto; border: 1px solid #ddd; border-radius: 8px;\" />\n<p style=\"font-size: 12px; color: #666; margin-top: 10px; font-style: italic;\">\nVisual comparison showing your original amount versus what you would need today to have the same purchasing power.\n</p>\n</div>\n</div>\n"
  else ""

/-- Everything of the rendered `emailContent` template before the current
year of the copyright footer (the template ends with
`© $(new Date().getFullYear()) KR Property Investments. ...`). -/
def emailContentHead (req : InflReq) : String :=
  let cd := req.calculationData.getD ⟨none, none, none, none⟩
  "<div style=\"font-family: Arial, sans-serif; max-width: 700px; margin: 0 auto; padding: 20px; line-height: 1.6; color: #333;\">\n"
  ++ "<div style=\"text-align: left; margin-bottom: 30px; border-bottom: 2px solid #ddd; padding-bottom: 15px;\">\n"
  ++ "<h1 style=\"color: #008e6d; margin: 0; font-size: 24px; font-weight: bold;\">KR Property Investments</h1>\n"
  ++ "<p style=\"margin: 5px 0 0 0; font-size: 16px; color: #666;\">Your Inflation Impact Report</p>\n</div>\n"
  ++ "<p style=\"margin-bottom: 20px;\">Hello " ++ jsOrStr req.name "there" ++ ",</p>\n"
  ++ "<p style=\"margin-bottom: 25px;\">Thank you for using our Inflation Calculator. Here's your detailed inflation impact analysis:</p>\n"
  ++ "<div style=\"border-top: 2px solid #ddd; margin: 30px 0 20px 0;\"></div>\n"
  ++ "<div style=\"margin: 30px 0;\">\n<h2 style=\"color: #008e6d; margin: 0 0 20px 0; font-size: 20px;\">📊 Calculation Summary</h2>\n"
  ++ "<ul style=\"list-style: none; padding: 0; margin: 0;\">\n"
  ++ "<li style=\"margin-bottom: 8px;\">• <strong>Original Amount:</strong> £" ++ amountDisp req.amount cd ++ "</li>\n"
  ++ "<li style=\"margin-bottom: 8px;\">• <strong>From:</strong> " ++ renderOpt req.month ++ "/" ++ renderOpt req.year ++ "</li>\n"
  ++ "<li style=\"margin-bottom: 8px;\">• <strong>Today's Value:</strong> £" ++ renderOpt cd.todayValue ++ "</li>\n"
  ++ "<li style=\"margin-bottom: 8px;\">• <strong>Loss in Purchasing Power:</strong> £" ++ renderOpt cd.lossInValue ++ "</li>\n"
  ++ "<li style=\"margin-bottom: 8px;\">• <strong>Percentage Increase Needed:</strong> " ++ renderOpt cd.percentageIncrease ++ "%</li>\n</ul>\n</div>\n"
  ++ emailContentChart req.chartImage
  ++ "<div style=\"margin: 30px 0;\">\n<h2 style=\"color: #008e6d; margin: 0 0 20px 0; font-size: 20px;\">💡 Key Insight</h2>\n"
  ++ "<p style=\"margin-bottom: 15px;\">Your money has lost <strong>" ++ renderOpt cd.percentageIncrease ++ "%</strong> of its purchasing power due to inflation. To maintain the same buying power, you would need <strong>£" ++ renderOpt cd.todayValue ++ "</strong> today.</p>\n"
  ++ "<p style=\"margin-bottom: 15px; font-style: italic; background-color: #f8f9fa; padding: 15px; border-left: 4px solid #008e6d;\">\"Not investing is like pouring water into a leaky bucket. Over time, no matter how full it looks, you're left with much less than you started with.\"</p>\n</div>\n"
  ++ "<div style=\"margin: 30px 0;\">\n<h2 style=\"color: #008e6d; margin: 0 0 20px 0; font-size: 20px;\">🚀 What This Means for You</h2>\n"
  ++ "<p style=\"margin-bottom: 15px;\">Inflation silently erodes your savings. Consider investing in assets that can outpace inflation, such as:</p>\n"
  ++ "<ul style=\"margin-bottom: 15px;\">\n<li>Property investments</li>\n<li>Stock market funds</li>\n<li>Inflation-protected securities</li>\n</ul>\n</div>\n"
  ++ "<div style=\"margin: 30px 0;\">\n<h2 style=\"color: #008e6d; margin: 0 0 20px 0; font-size: 20px;\">📞 Let's Talk</h2>\n"
  ++ "<p style=\"margin-bottom: 15px;\">Want to find out how to protect your money and grow it confidently?</p>\n"
  ++ "<div style=\"text-align: center; margin: 25px 0;\">\n<a href=\"https://kr-properties.co.uk/contact\" style=\"display: inline-block; background-color: #008e6d; color: white; text-decoration: none; padding: 15px 30px; border-radius: 5px; font-weight: bold; font-size: 16px;\">Book a Personal Consultation →</a>\n</div>\n"
  ++ "<p style=\"margin-bottom: 5px;\">Or contact us directly:</p>\n<p style=\"margin: 5px 0;\"><strong>Email:</strong> info@kr-properties.co.uk</p>\n<p style=\"margin: 5px 0;\"><strong>Phone:</strong> 020 3633 2783</p>\n</div>\n"
  ++ "<div style=\"border-top: 2px solid #ddd; margin: 30px 0 20px 0;\"></div>\n"
  ++ "<div style=\"text-align: center; color: #666; font-size: 12px; margin-top: 30px;\">\n<p style=\"margin: 0;\">© "

/-- The constant part of the template after the current year. -/
def emailContentTail : String :=
  " KR Property Investments. All rights reserved.</p>\n</div>\n</div>\n"

/-- The rendered notification body (`emailContent`).  `currentYear` models
`new Date().getFullYear()`, evaluated at composition time. -/
def emailContent (req : InflReq) (currentYear : Nat) : String :=
  emailContentHead req ++ toString currentYear ++ emailContentTail

/-- The fixed subject line of the inflation report email. -/
def inflationSubject : String :=
  "Your Inflation Impact Report - KR Property Investments"

/-- `JSON.stringify({message, code, ...})` of a transport error, used as
the queued row error detail. -/
def errJson (e : TransportErr) : String :=
  "\x7b\"message\":\"" ++ e.message ++ "\",\"code\":" ++ toString e.code ++ "\x7d"

/-- The observable part of a `/api/inflation-email` JSON response. -/
structure InflResponse where
  status : Nat
  success : Bool
  emailSent : Bool
  emailStored : Bool
  recipient : Option String
  errorDetails : Option TransportErr
deriving Repr, DecidableEq

/-- Result of a `POST /api/inflation-email` call: response, the
`pending_emails` state, and the senders the transport was called with. -/
structure InflResult where
  resp : InflResponse
  pending : PendingState
  attempted : List SenderConfig
deriving Repr, DecidableEq

/-- The request-validation predicate of `POST /api/inflation-email`:
`email` truthy, `calculationData` present, email format valid. -/
def inflValid (req : InflReq) : Bool :=
  jsTruthy req.email && req.calculationData.isSome
    && emailRegexTest (jsTrim (req.email.getD ""))

/-- The `POST /api/inflation-email` handler.  `sg` is whether
`SENDGRID_API_KEY` is configured, `t` the transport, `dbAvail` whether the
store is reachable, `insertFault` whether the `pending_emails` insert
throws.  All failures after validation are absorbed: the response is
HTTP 200 `success: true` with `emailSent` / `emailStored` flags. -/
def inflationEmailHandler (req : InflReq) (sg : Bool)
    (t : SenderConfig → Except TransportErr Unit)
    (dbAvail insertFault : Bool) (pending : PendingState)
    (currentYear now : Nat) : InflResult :=
  if !(jsTruthy req.email) || req.calculationData.isNone then
    ⟨⟨400, false, false, false, none, none⟩, pending, []⟩
  else
    let e := jsTrim (req.email.getD "")
    if !emailRegexTest e then ⟨⟨400, false, false, false, none, none⟩, pending, []⟩
    else if !sg then ⟨⟨200, true, false, false, some e, none⟩, pending, []⟩
    else
      let content := emailContent req currentYear
      let o := deliver t senderConfigs
      if o.sent then
        ⟨⟨200, true, true, false, some e, o.lastError⟩, pending, o.called⟩
      else if dbAvail then
        match pendingInsert insertFault pending e (some (jsOrStr req.name "User"))
            inflationSubject content "inflation_report" "pending"
            (some (match o.lastError with
              | some err => errJson err
              | none => "SendGrid configuration issue")) now with
        | .ok (p2, _) => ⟨⟨200, true, false, true, some e, o.lastError⟩, p2, o.called⟩
        | .error _ => ⟨⟨200, true, false, false, some e, o.lastError⟩, pending, o.called⟩
      else ⟨⟨200, true, false, false, some e, o.lastError⟩, pending, o.called⟩

/-! ## Learning progress (`POST /api/learning/progress`) -/

/-- A row of the `learning_progress` table. -/
structure ProgRow where
  id : Nat
  userId : String
  moduleId : String
  completed : String
  score : Option String
  timeSpent : Option String
  createdAt : Nat
  updatedAt : Nat
deriving Repr, DecidableEq

/-- The `learning_progress` table with its serial-id counter. -/
structure ProgState where
  rows : List ProgRow
  nextId : Nat
deriving Repr, DecidableEq

/-- The request body of `POST /api/learning/progress`. -/
structure ProgReq where
  userId : Option String
  moduleId : Option String
  completed : Option String
  score : Option String
  timeSpent : Option String
deriving Repr, DecidableEq

/-- The composite-key predicate `and(eq(userId, u), eq(moduleId, m))`. -/
def progMatches (u m : String) (r : ProgRow) : Bool :=
  r.userId == u && r.moduleId == m

/-- `db.select().from(learningProgress).where(and(eq(userId,u), eq(moduleId,m)))`. -/
def progSelect (st : ProgState) (u m : String) : List ProgRow :=
  st.rows.filter (progMatches u m)

/-- `db.update(learningProgress).set({...}).where(...).returning()`:
overwrite the payload fields and bump `updatedAt` on every matching row;
the second component is the list of updated rows returned. -/
def progUpdate (st : ProgState) (u m : String)
    (completed : String) (score timeSpent : Option String) (now : Nat) :
    ProgState × List ProgRow :=
  let upd : ProgRow → ProgRow := fun r =>
    if progMatches u m r then
      { r with completed := completed, score := score,
               timeSpent := timeSpent, updatedAt := now }
    else r
  (⟨st.rows.map upd, st.nextId⟩, (st.rows.map upd).filter (progMatches u m))

/-- The observable part of a `/api/learning/progress` JSON response
(`data` is the stored row). -/
structure ProgResponse where
  status : Nat
  success : Bool
  row : Option ProgRow
deriving Repr, DecidableEq

/-- The `POST /api/learning/progress` handler (the keyed upserter):
validation, composite-key lookup, then update-or-insert.  There is no
not-found error path: absence always triggers creation. -/
def learningProgressPost (req : ProgReq) (dbAvail : Bool) (st : ProgState)
    (now : Nat) : ProgResponse × ProgState :=
  if !(jsTruthy req.userId && jsTruthy req.moduleId) then (⟨400, false, none⟩, st)
  else if !dbAvail then (⟨500, false, none⟩, st)
  else
    let u := req.userId.getD ""
    let m := req.moduleId.getD ""
    let completed := jsOrStr req.completed "false"
    let score := jsOrNull req.score
    let timeSpent := jsOrNull req.timeSpent
    match progSelect st u m with
    | _ :: _ =>
      let (st2, updated) := progUpdate st u m completed score timeSpent now
      match updated with
      | r :: _ => (⟨201, true, some r⟩, st2)
      | [] => (⟨500, false, none⟩, st2)
    | [] =>
      let r : ProgRow := ⟨st.nextId, u, m, completed, score, timeSpent, now, now⟩
      (⟨201, true, some r⟩, ⟨st.rows ++ [r], st.nextId + 1⟩)

/-! ## Helper lemmas -/

lemma any_false_of_filter_nil {α : Type} (p : α → Bool) (l : List α)
    (h : l.filter p = []) : l.any p = false := by
  induction l with
  | nil => rfl
  | cons a l ih =>
    by_cases hp : p a
    · simp [List.filter_cons, hp] at h
    · simp only [List.filter_cons, hp, if_false] at h
      simp [List.any_cons, hp, ih h]

lemma map_cond_id_of_filter_nil {α : Type} (p : α → Bool) (f : α → α)
    (l : List α) (h : l.filter p = []) :
    l.map (fun r => if p r then f r else r) = l := by
  induction l with
  | nil => rfl
  | cons a l ih =>
    by_cases hp : p a
    · simp [List.filter_cons, hp] at h
    · simp only [List.filter_cons, hp, if_false] at h
      simp [hp, ih h]

/-- The row inserted by the deal-lead handler for request `req` on state `st`. -/
def mkLeadRow (st : LeadState) (req : LeadReq) (now : Nat) : LeadRow :=
  ⟨st.nextId, jsTrim (req.name.getD ""), jsTrim (req.email.getD ""),
   (jsOrNull req.phone).map jsTrim, jsTrim (req.investmentAmount.getD ""),
   jsTrim (req.experienceLevel.getD ""), now⟩

/-- The full request-validation predicate of `POST /api/send-deal-lead`. -/
def leadValid (req : LeadReq) : Bool :=
  jsTruthy req.name && jsTruthy req.email && jsTruthy req.investmentAmount
    && jsTruthy req.experienceLevel && emailRegexTest (jsTrim (req.email.getD ""))

lemma leadIngestStep_created (req : LeadReq) (st : LeadState) (now : Nat)
    (hv : leadValid req = true)
    (h0 : leadSelect st (jsTrim (req.email.getD "")) = []) :
    leadIngestStep req true false st st now
      = .created ⟨st.rows ++ [mkLeadRow st req now], st.nextId + 1⟩
          (mkLeadRow st req now) := by
  simp only [leadValid, Bool.and_eq_true] at hv
  obtain ⟨⟨⟨⟨h1, h2⟩, h3⟩, h4⟩, h5⟩ := hv
  have hany : st.rows.any
      (fun r => r.email == jsTrim (req.email.getD "")) = false :=
    any_false_of_filter_nil _ _ h0
  simp [leadIngestStep, h1, h2, h3, h4, h5, h0, leadInsert, hany, mkLeadRow]

lemma leadIngestStep_existing (req : LeadReq) (stL stI : LeadState)
    (fault : Bool) (now : Nat) (r : LeadRow) (rest : List LeadRow)
    (hv : leadValid req = true)
    (hsel : leadSelect stL (jsTrim (req.email.getD "")) = r :: rest) :
    leadIngestStep req true fault stL stI now = .existing r := by
  simp only [leadValid, Bool.and_eq_true] at hv
  obtain ⟨⟨⟨⟨h1, h2⟩, h3⟩, h4⟩, h5⟩ := hv
  simp [leadIngestStep, h1, h2, h3, h4, h5, hsel]

/-! ## Claim C2 (duplicate-insert race) -/

/-- C2: the claim says a `ConstraintViolation` from losing the
read-then-insert race is recovered by re-reading the now-present row and
answering success.  The code has no such recovery path: here the lookup
state is empty, a concurrent insert has committed `a@b.com` before this
call's insert runs, and the handler surfaces the violation as an HTTP 500
error response, leaving the store unchanged. -/
theorem newsletter_conflict_surfaced :
    newsletterHandler (some "a@b.com") true ⟨[], 1⟩ ⟨[⟨1, "a@b.com", 0⟩], 2⟩ 5
      = (⟨500, false, none⟩, ⟨[⟨1, "a@b.com", 0⟩], 2⟩) := by decide

/-! ## Claim C3 (sequential idempotent ingest) -/

/-- C3: calling the deal-lead ingest twice sequentially with the same
email yields a created (201) response then a not-created (200) response,
both with the identifier of the first insert, and the second call leaves
the stored record (and whole table) unchanged — the second payload is
discarded. -/
theorem deal_lead_ingest_idempotent
    (req1 req2 : LeadReq) (st : LeadState) (p : PendingState)
    (sg1 sg2 : Bool) (r1 r2 : Except TransportErr Unit) (now1 now2 : Nat)
    (hv1 : leadValid req1 = true) (hv2 : leadValid req2 = true)
    (he : jsTrim (req2.email.getD "") = jsTrim (req1.email.getD ""))
    (h0 : leadSelect st (jsTrim (req1.email.getD "")) = []) :
    (sendDealLead req1 true false st st p sg1 r1 now1).resp.status = 201 ∧
    (sendDealLead req1 true false st st p sg1 r1 now1).resp.success = true ∧
    (sendDealLead req1 true false st st p sg1 r1 now1).resp.id = some st.nextId ∧
    (sendDealLead req2 true false
        (sendDealLead req1 true false st st p sg1 r1 now1).state
        (sendDealLead req1 true false st st p sg1 r1 now1).state
        (sendDealLead req1 true false st st p sg1 r1 now1).pending
        sg2 r2 now2).resp.status = 200 ∧
    (sendDealLead req2 true false
        (sendDealLead req1 true false st st p sg1 r1 now1).state
        (sendDealLead req1 true false st st p sg1 r1 now1).state
        (sendDealLead req1 true false st st p sg1 r1 now1).pending
        sg2 r2 now2).resp.success = true ∧
    (sendDealLead req2 true false
        (sendDealLead req1 true false st st p sg1 r1 now1).state
        (sendDealLead req1 true false st st p sg1 r1 now1).state
        (sendDealLead req1 true false st st p sg1 r1 now1).pending
        sg2 r2 now2).resp.id = some st.nextId ∧
    (sendDealLead req2 true false
        (sendDealLead req1 true false st st p sg1 r1 now1).state
        (sendDealLead req1 true false st st p sg1 r1 now1).state
        (sendDealLead req1 true false st st p sg1 r1 now1).pending
        sg2 r2 now2).state
      = (sendDealLead req1 true false st st p sg1 r1 now1).state := by
  have hstep1 := leadIngestStep_created req1 st now1 hv1 h0
  have hres1 : sendDealLead req1 true false st st p sg1 r1 now1
      = ⟨⟨201, true, some st.nextId, some (sg1 && okB r1)⟩,
         ⟨st.rows ++ [mkLeadRow st req1 now1], st.nextId + 1⟩, p⟩ := by
    simp [sendDealLead, hstep1, mkLeadRow]
  have hsel2 : leadSelect ⟨st.rows ++ [mkLeadRow st req1 now1], st.nextId + 1⟩
      (jsTrim (req2.email.getD "")) = [mkLeadRow st req1 now1] := by
    simp only [leadSelect, he, List.filter_append]
    rw [show st.rows.filter
        (fun r => r.email == jsTrim (req1.email.getD "")) = [] from h0]
    simp [mkLeadRow]
  have hstep2 := leadIngestStep_existing req2
      ⟨st.rows ++ [mkLeadRow st req1 now1], st.nextId + 1⟩
      ⟨st.rows ++ [mkLeadRow st req1 now1], st.nextId + 1⟩
      false now2 (mkLeadRow st req1 now1) [] hv2 hsel2
  refine ⟨?_, ?_, ?_, ?_, ?_, ?_, ?_⟩ <;>
    · rw [hres1]
      try simp [sendDealLead, hstep2]
      try simp [mkLeadRow]

/-! ## Claim C4 (ordered sender rotation) -/

/-- The value of the `emailError` variable after walking `L` with transport
`t`, starting from `le` (each failure overwrites it; a success leaves it). -/
def lastErrFrom (t : SenderConfig → Except TransportErr Unit) :
    Option TransportErr → List SenderConfig → Option TransportErr
  | le, [] => le
  | _, c :: rest => lastErrFrom t (errOf (t c)) rest

lemma lastErrFrom_concat (t : SenderConfig → Except TransportErr Unit) :
    ∀ (L : List SenderConfig) (le : Option TransportErr) (c : SenderConfig),
    lastErrFrom t le (L ++ [c]) = errOf (t c) := by
  intro L
  induction L with
  | nil => intro le c; simp [lastErrFrom]
  | cons a L ih => intro le c; simp [lastErrFrom, ih]

lemma deliverAux_all_fail (t : SenderConfig → Except TransportErr Unit) :
    ∀ (L : List SenderConfig) (n : Nat) (le : Option TransportErr)
      (cs : List SenderConfig),
    (∀ c ∈ L, okB (t c) = false) →
    deliverAux t L n le cs
      = ⟨false, n + L.length, lastErrFrom t le L, cs ++ L⟩ := by
  intro L
  induction L with
  | nil => intro n le cs _; simp [deliverAux, lastErrFrom]
  | cons c rest ih =>
    intro n le cs h
    have hc : okB (t c) = false := h c (List.mem_cons_self c rest)
    cases htc : t c with
    | ok u => rw [htc] at hc; simp [okB] at hc
    | error e =>
      simp only [deliverAux, htc]
      rw [ih (n + 1) (some e) (cs ++ [c])
        (fun c' hc' => h c' (List.mem_cons_of_mem _ hc'))]
      simp only [lastErrFrom, htc, errOf, List.length_cons,
        List.append_assoc, List.cons_append, List.nil_append,
        DeliveryOutcome.mk.injEq, and_true, true_and]
      omega

lemma deliverAux_first_ok (t : SenderConfig → Except TransportErr Unit) :
    ∀ (L : List SenderConfig) (n : Nat) (le : Option TransportErr)
      (cs : List SenderConfig) (i : Nat) (hi : i < L.length),
    okB (t (L.get ⟨i, hi⟩)) = true →
    (∀ j (hj : j < i), okB (t (L.get ⟨j, Nat.lt_trans hj hi⟩)) = false) →
    (deliverAux t L n le cs).sent = true ∧
    (deliverAux t L n le cs).attemptsTried = n + i + 1 ∧
    (deliverAux t L n le cs).called = cs ++ L.take (i + 1) := by
  intro L
  induction L with
  | nil => intro n le cs i hi; exact absurd hi (by simp)
  | cons c rest ih =>
    intro n le cs i hi hok hfail
    cases i with
    | zero =>
      have hc : okB (t c) = true := hok
      cases htc : t c with
      | error e => rw [htc] at hc; simp [okB] at hc
      | ok u => simp [deliverAux, htc]
    | succ iv =>
      have h0 : okB (t c) = false := hfail 0 (Nat.succ_pos iv)
      cases htc : t c with
      | ok u => rw [htc] at h0; simp [okB] at h0
      | error e =>
        simp only [deliverAux, htc]
        have hiv : iv < rest.length := Nat.lt_of_succ_lt_succ hi
        have hok2 : okB (t (rest.get ⟨iv, hiv⟩)) = true := by
          simpa using hok
        have hfail2 : ∀ j (hj : j < iv),
            okB (t (rest.get ⟨j, Nat.lt_trans hj hiv⟩)) = false := by
          intro j hj
          simpa using hfail (j + 1) (Nat.succ_lt_succ hj)
        obtain ⟨h1, h2, h3⟩ := ih (n + 1) (some e) (cs ++ [c]) iv hiv hok2 hfail2
        refine ⟨h1, ?_, ?_⟩
        · rw [h2]; omega
        · rw [h3]; simp [List.take_succ_cons]

/-- C4: the delivery coordinator calls the transport for each sender in
list order.  If the first transport success is at position `i` (all earlier
senders fail), it stops there: `sent = true`, `attemptsTried = i + 1`, and
exactly the first `i + 1` senders were called.  If every sender fails, it
returns `sent = false` after trying the whole list, preserving the error of
the last sender. -/
theorem deliver_sender_rotation (t : SenderConfig → Except TransportErr Unit)
    (senders : List SenderConfig) :
    (∀ i (hi : i < senders.length),
      okB (t (senders.get ⟨i, hi⟩)) = true →
      (∀ j (hj : j < i), okB (t (senders.get ⟨j, Nat.lt_trans hj hi⟩)) = false) →
      (deliver t senders).sent = true ∧
      (deliver t senders).attemptsTried = i + 1 ∧
      (deliver t senders).called = senders.take (i + 1)) ∧
    ((∀ c ∈ senders, okB (t c) = false) →
      (deliver t senders).sent = false ∧
      (deliver t senders).attemptsTried = senders.length ∧
      (deliver t senders).called = senders ∧
      ∀ (h : ¬senders = []),
        (deliver t senders).lastError = errOf (t (senders.getLast h))) := by
  constructor
  · intro i hi hok hfail
    have h := deliverAux_first_ok t senders 0 none [] i hi hok hfail
    simpa [deliver] using h
  · intro hall
    have h := deliverAux_all_fail t senders 0 none [] hall
    refine ⟨by simp [deliver, h], by simp [deliver, h], by simp [deliver, h], ?_⟩
    intro hne
    rw [deliver, h]
    show lastErrFrom t none senders = _
    obtain ⟨L, c, rfl⟩ : ∃ L c, senders = L ++ [c] :=
      ⟨senders.dropLast, senders.getLast hne,
        (List.dropLast_append_getLast hne).symm⟩
    have hlast : (L ++ [c]).getLast hne = c := by
      simp [List.getLast_append]
    rw [hlast, lastErrFrom_concat]

/-- Witness for C4: with the fixed three-sender list, a transport that
fails for the first two senders and succeeds for the third gives
`sent = true` after exactly 3 attempts with no fourth call; an always
failing transport gives `sent = false` with the last error preserved. -/
theorem deliver_sender_rotation_witness :
    (deliver (fun c => if c.fromEmail == "hello@kr-properties.co.uk"
        then Except.ok () else Except.error ⟨550, "sender not verified"⟩)
      senderConfigs).sent = true ∧
    (deliver (fun c => if c.fromEmail == "hello@kr-properties.co.uk"
        then Except.ok () else Except.error ⟨550, "sender not verified"⟩)
      senderConfigs).attemptsTried = 3 ∧
    (deliver (fun c => if c.fromEmail == "hello@kr-properties.co.uk"
        then Except.ok () else Except.error ⟨550, "sender not verified"⟩)
      senderConfigs).called = senderConfigs.take 3 ∧
    (deliver (fun _ => Except.error ⟨401, "unauthorized"⟩)
      senderConfigs).sent = false ∧
    (deliver (fun _ => Except.error ⟨401, "unauthorized"⟩)
      senderConfigs).lastError = some ⟨401, "unauthorized"⟩ := by
  have h1 := (deliver_sender_rotation
    (fun c => if c.fromEmail == "hello@kr-properties.co.uk"
        then Except.ok () else Except.error ⟨550, "sender not verified"⟩)
    senderConfigs).1 2 (by decide) (by decide) (by decide)
  have h2 := (deliver_sender_rotation
    (fun _ => Except.error ⟨401, "unauthorized"⟩) senderConfigs).2 (by decide)
  refine ⟨h1.1, h1.2.1, h1.2.2, h2.1, ?_⟩
  rw [h2.2.2.2 (by decide)]
  decide

/-! ## Claim C1 (side-channel failures never fail ingestion) -/

lemma infl_success (req : InflReq) (sg : Bool)
    (t : SenderConfig → Except TransportErr Unit) (db fault : Bool)
    (p : PendingState) (y now : Nat) (hv : inflValid req = true) :
    (inflationEmailHandler req sg t db fault p y now).resp.success = true ∧
    (inflationEmailHandler req sg t db fault p y now).resp.status = 200 := by
  simp only [inflValid, Bool.and_eq_true] at hv
  obtain ⟨⟨h1, h2⟩, h3⟩ := hv
  have h2n : req.calculationData.isNone = false := by
    cases hcd : req.calculationData with
    | none => rw [hcd] at h2; simp at h2
    | some cd => simp
  refine ⟨?_, ?_⟩ <;>
    · simp only [inflationEmailHandler, h1, h2n, h3, Bool.not_true,
        Bool.or_false, Bool.false_or, if_false]
      repeat' split
      all_goals first | rfl | contradiction

/-- C1: once the record-creation step of the deal-lead endpoint has
succeeded, the response outcome (success flag, status, returned id, stored
state) is the same whatever the confirmation-email transport does; and
every data-ingestion failure (validation, missing store, insert failure)
is surfaced as an error response.  Likewise the inflation-email endpoint
answers success for every valid request regardless of transport, store, or
queue-insert failures. -/
theorem ingest_isolated_from_side_channel
    (req : LeadReq) (dbAvail fault : Bool) (stL stI : LeadState)
    (p : PendingState) (sg : Bool) (r1 r2 : Except TransportErr Unit)
    (now : Nat) (ireq : InflReq) (isg : Bool)
    (it : SenderConfig → Except TransportErr Unit) (idb ifault : Bool)
    (ip : PendingState) (y n2 : Nat) :
    ((sendDealLead req dbAvail fault stL stI p sg r1 now).resp.success = true →
      (sendDealLead req dbAvail fault stL stI p sg r2 now).resp.success = true ∧
      (sendDealLead req dbAvail fault stL stI p sg r2 now).resp.status
        = (sendDealLead req dbAvail fault stL stI p sg r1 now).resp.status ∧
      (sendDealLead req dbAvail fault stL stI p sg r2 now).resp.id
        = (sendDealLead req dbAvail fault stL stI p sg r1 now).resp.id ∧
      (sendDealLead req dbAvail fault stL stI p sg r2 now).state
        = (sendDealLead req dbAvail fault stL stI p sg r1 now).state) ∧
    (leadIngestStep req dbAvail fault stL stI now = .invalid →
      (sendDealLead req dbAvail fault stL stI p sg r1 now).resp
        = ⟨400, false, none, none⟩) ∧
    (leadIngestStep req dbAvail fault stL stI now = .noDb →
      (sendDealLead req dbAvail fault stL stI p sg r1 now).resp
        = ⟨500, false, none, none⟩) ∧
    (leadIngestStep req dbAvail fault stL stI now = .insertFailed →
      (sendDealLead req dbAvail fault stL stI p sg r1 now).resp
        = ⟨500, false, none, none⟩) ∧
    (inflValid ireq = true →
      (inflationEmailHandler ireq isg it idb ifault ip y n2).resp.success = true ∧
      (inflationEmailHandler ireq isg it idb ifault ip y n2).resp.status = 200) := by
  refine ⟨?_, ?_, ?_, ?_, ?_⟩
  · intro hs
    cases hstep : leadIngestStep req dbAvail fault stL stI now <;>
      simp [sendDealLead, hstep] at hs ⊢
  · intro hstep; simp [sendDealLead, hstep]
  · intro hstep; simp [sendDealLead, hstep]
  · intro hstep; simp [sendDealLead, hstep]
  · intro hv; exact infl_success ireq isg it idb ifault ip y n2 hv

/-- Witness for C1: a concrete created lead whose confirmation email
throws still answers success (and identically to a successful send); a
missing-fields request, an unavailable store, and a failing insert each
surface an error; a valid inflation-email request with an always-failing
transport still answers success. -/
theorem ingest_isolated_from_side_channel_witness :
    (sendDealLead ⟨some "Jo", some "a@b.com", none, some "10k", some "beginner"⟩
        true false ⟨[], 1⟩ ⟨[], 1⟩ ⟨[], 1⟩ true (Except.ok ()) 0).resp.success
      = true ∧
    (sendDealLead ⟨none, none, none, none, none⟩ true false ⟨[], 1⟩ ⟨[], 1⟩
        ⟨[], 1⟩ true (Except.error ⟨403, "forbidden"⟩) 0).resp
      = ⟨400, false, none, none⟩ ∧
    (sendDealLead ⟨some "Jo", some "a@b.com", none, some "10k", some "beginner"⟩
        false false ⟨[], 1⟩ ⟨[], 1⟩ ⟨[], 1⟩ true
        (Except.error ⟨403, "forbidden"⟩) 0).resp = ⟨500, false, none, none⟩ ∧
    (sendDealLead ⟨some "Jo", some "a@b.com", none, some "10k", some "beginner"⟩
        true true ⟨[], 1⟩ ⟨[], 1⟩ ⟨[], 1⟩ true
        (Except.error ⟨403, "forbidden"⟩) 0).resp = ⟨500, false, none, none⟩ ∧
    (inflationEmailHandler ⟨some "Jo", some "a@b.com", some "100", some "1",
        some "2000", none, some ⟨some "100", some "150", some "50", some "50.00"⟩⟩
        true (fun _ => Except.error ⟨401, "unauthorized"⟩) true false ⟨[], 1⟩
        2025 0).resp.success = true := by
  refine ⟨?_, ?_, ?_, ?_, ?_⟩
  · exact ((ingest_isolated_from_side_channel
      ⟨some "Jo", some "a@b.com", none, some "10k", some "beginner"⟩
      true false ⟨[], 1⟩ ⟨[], 1⟩ ⟨[], 1⟩ true
      (Except.error ⟨403, "forbidden"⟩) (Except.ok ()) 0
      ⟨some "Jo", some "a@b.com", some "100", some "1", some "2000", none,
        some ⟨some "100", some "150", some "50", some "50.00"⟩⟩
      true (fun _ => Except.error ⟨401, "unauthorized"⟩) true false ⟨[], 1⟩
      2025 0).1 (by decide)).1
  · exact (ingest_isolated_from_side_channel
      ⟨none, none, none, none, none⟩
      true false ⟨[], 1⟩ ⟨[], 1⟩ ⟨[], 1⟩ true
      (Except.error ⟨403, "forbidden"⟩) (Except.ok ()) 0
      ⟨some "Jo", some "a@b.com", some "100", some "1", some "2000", none,
        some ⟨some "100", some "150", some "50", some "50.00"⟩⟩
      true (fun _ => Except.error ⟨401, "unauthorized"⟩) true false ⟨[], 1⟩
      2025 0).2.1 (by decide)
  · exact (ingest_isolated_from_side_channel
      ⟨some "Jo", some "a@b.com", none, some "10k", some "beginner"⟩
      false false ⟨[], 1⟩ ⟨[], 1⟩ ⟨[], 1⟩ true
      (Except.error ⟨403, "forbidden"⟩) (Except.ok ()) 0
      ⟨some "Jo", some "a@b.com", some "100", some "1", some "2000", none,
        some ⟨some "100", some "150", some "50", some "50.00"⟩⟩
      true (fun _ => Except.error ⟨401, "unauthorized"⟩) true false ⟨[], 1⟩
      2025 0).2.2.1 (by decide)
  · exact (ingest_isolated_from_side_channel
      ⟨some "Jo", some "a@b.com", none, some "10k", some "beginner"⟩
      true true ⟨[], 1⟩ ⟨[], 1⟩ ⟨[], 1⟩ true
      (Except.error ⟨403, "forbidden"⟩) (Except.ok ()) 0
      ⟨some "Jo", some "a@b.com", some "100", some "1", some "2000", none,
        some ⟨some "100", some "150", some "50", some "50.00"⟩⟩
      true (fun _ => Except.error ⟨401, "unauthorized"⟩) true false ⟨[], 1⟩
      2025 0).2.2.2.1 (by decide)
  · exact ((ingest_isolated_from_side_channel
      ⟨some "Jo", some "a@b.com", none, some "10k", some "beginner"⟩
      true false ⟨[], 1⟩ ⟨[], 1⟩ ⟨[], 1⟩ true
      (Except.error ⟨403, "forbidden"⟩) (Except.ok ()) 0
      ⟨some "Jo", some "a@b.com", some "100", some "1", some "2000", none,
        some ⟨some "100", some "150", some "50", some "50.00"⟩⟩
      true (fun _ => Except.error ⟨401, "unauthorized"⟩) true false ⟨[], 1⟩
      2025 0).2.2.2.2 (by decide)).1

/-- Witness for C3: two concrete sequential deal-lead submissions with the
same email and different payloads. -/
theorem deal_lead_ingest_idempotent_witness :
    (sendDealLead ⟨some "Jo", some "a@b.com", none, some "10k", some "beginner"⟩
        true false ⟨[], 1⟩ ⟨[], 1⟩ ⟨[], 1⟩ true (Except.ok ()) 3).resp.status
      = 201 ∧
    (sendDealLead ⟨some "Jo", some "a@b.com", none, some "10k", some "beginner"⟩
        true false ⟨[], 1⟩ ⟨[], 1⟩ ⟨[], 1⟩ true (Except.ok ()) 3).resp.success
      = true ∧
    (sendDealLead ⟨some "Jo", some "a@b.com", none, some "10k", some "beginner"⟩
        true false ⟨[], 1⟩ ⟨[], 1⟩ ⟨[], 1⟩ true (Except.ok ()) 3).resp.id
      = some (⟨[], 1⟩ : LeadState).nextId ∧
    (sendDealLead ⟨some "Ann", some "a@b.com", some "123", some "50k", some "expert"⟩
        true false
        (sendDealLead ⟨some "Jo", some "a@b.com", none, some "10k", some "beginner"⟩
          true false ⟨[], 1⟩ ⟨[], 1⟩ ⟨[], 1⟩ true (Except.ok ()) 3).state
        (sendDealLead ⟨some "Jo", some "a@b.com", none, some "10k", some "beginner"⟩
          true false ⟨[], 1⟩ ⟨[], 1⟩ ⟨[], 1⟩ true (Except.ok ()) 3).state
        (sendDealLead ⟨some "Jo", some "a@b.com", none, some "10k", some "beginner"⟩
          true false ⟨[], 1⟩ ⟨[], 1⟩ ⟨[], 1⟩ true (Except.ok ()) 3).pending
        false (Except.ok ()) 9).resp.status = 200 ∧
    (sendDealLead ⟨some "Ann", some "a@b.com", some "123", some "50k", some "expert"⟩
        true false
        (sendDealLead ⟨some "Jo", some "a@b.com", none, some "10k", some "beginner"⟩
          true false ⟨[], 1⟩ ⟨[], 1⟩ ⟨[], 1⟩ true (Except.ok ()) 3).state
        (sendDealLead ⟨some "Jo", some "a@b.com", none, some "10k", some "beginner"⟩
          true false ⟨[], 1⟩ ⟨[], 1⟩ ⟨[], 1⟩ true (Except.ok ()) 3).state
        (sendDealLead ⟨some "Jo", some "a@b.com", none, some "10k", some "beginner"⟩
          true false ⟨[], 1⟩ ⟨[], 1⟩ ⟨[], 1⟩ true (Except.ok ()) 3).pending
        false (Except.ok ()) 9).resp.success = true ∧
    (sendDealLead ⟨some "Ann", some "a@b.com", some "123", some "50k", some "expert"⟩
        true false
        (sendDealLead ⟨some "Jo", some "a@b.com", none, some "10k", some "beginner"⟩
          true false ⟨[], 1⟩ ⟨[], 1⟩ ⟨[], 1⟩ true (Except.ok ()) 3).state
        (sendDealLead ⟨some "Jo", some "a@b.com", none, some "10k", some "beginner"⟩
          true false ⟨[], 1⟩ ⟨[], 1⟩ ⟨[], 1⟩ true (Except.ok ()) 3).state
        (sendDealLead ⟨some "Jo", some "a@b.com", none, some "10k", some "beginner"⟩
          true false ⟨[], 1⟩ ⟨[], 1⟩ ⟨[], 1⟩ true (Except.ok ()) 3).pending
        false (Except.ok ()) 9).resp.id = some (⟨[], 1⟩ : LeadState).nextId ∧
    (sendDealLead ⟨some "Ann", some "a@b.com", some "123", some "50k", some "expert"⟩
        true false
        (sendDealLead ⟨some "Jo", some "a@b.com", none, some "10k", some "beginner"⟩
          true false ⟨[], 1⟩ ⟨[], 1⟩ ⟨[], 1⟩ true (Except.ok ()) 3).state
        (sendDealLead ⟨some "Jo", some "a@b.com", none, some "10k", some "beginner"⟩
          true false ⟨[], 1⟩ ⟨[], 1⟩ ⟨[], 1⟩ true (Except.ok ()) 3).state
        (sendDealLead ⟨some "Jo", some "a@b.com", none, some "10k", some "beginner"⟩
          true false ⟨[], 1⟩ ⟨[], 1⟩ ⟨[], 1⟩ true (Except.ok ()) 3).pending
        false (Except.ok ()) 9).state
      = (sendDealLead ⟨some "Jo", some "a@b.com", none, some "10k", some "beginner"⟩
          true false ⟨[], 1⟩ ⟨[], 1⟩ ⟨[], 1⟩ true (Except.ok ()) 3).state :=
  deal_lead_ingest_idempotent
    ⟨some "Jo", some "a@b.com", none, some "10k", some "beginner"⟩
    ⟨some "Ann", some "a@b.com", some "123", some "50k", some "expert"⟩
    ⟨[], 1⟩ ⟨[], 1⟩ true false (Except.ok ()) (Except.ok ()) 3 9
    (by decide) (by decide) (by decide) (by decide)

/-! ## Claim C5 (delivery failure hands the message to the retry queue) -/

/-- Counterexample for C5: in the deal-lead pipeline a failed confirmation
email is dropped: the handler answers success with `emailSent = false` and
the `pending_emails` table is left untouched — no queued row is created for
this notification. -/
theorem deal_lead_failure_not_enqueued :
    (sendDealLead ⟨some "Jo", some "a@b.com", none, some "10k", some "beginner"⟩
        true false ⟨[], 1⟩ ⟨[], 1⟩ ⟨[], 1⟩ true
        (Except.error ⟨403, "forbidden"⟩) 0).resp.success = true ∧
    (sendDealLead ⟨some "Jo", some "a@b.com", none, some "10k", some "beginner"⟩
        true false ⟨[], 1⟩ ⟨[], 1⟩ ⟨[], 1⟩ true
        (Except.error ⟨403, "forbidden"⟩) 0).resp.emailSent = some false ∧
    (sendDealLead ⟨some "Jo", some "a@b.com", none, some "10k", some "beginner"⟩
        true false ⟨[], 1⟩ ⟨[], 1⟩ ⟨[], 1⟩ true
        (Except.error ⟨403, "forbidden"⟩) 0).pending = ⟨[], 1⟩ := by decide

/-- C5 (amended): in the inflation-email pipeline, when every sender fails
and the store is reachable with a succeeding insert, a queued row is
created in `pending_emails` and the operation still answers success with
`emailStored = true`; the deal-lead pipeline, in contrast, never writes to
`pending_emails` at all. -/
theorem delivery_exhaustion_enqueues (req : InflReq)
    (t : SenderConfig → Except TransportErr Unit) (p : PendingState)
    (y now : Nat) (hv : inflValid req = true)
    (hall : ∀ c ∈ senderConfigs, okB (t c) = false) :
    (inflationEmailHandler req true t true false p y now).pending.rows.length
      = p.rows.length + 1 ∧
    (inflationEmailHandler req true t true false p y now).resp.success = true ∧
    (inflationEmailHandler req true t true false p y now).resp.emailSent = false ∧
    (inflationEmailHandler req true t true false p y now).resp.emailStored = true ∧
    ∀ (lreq : LeadReq) (db f : Bool) (sL sI : LeadState) (lp : PendingState)
      (sg : Bool) (r : Except TransportErr Unit) (n : Nat),
      (sendDealLead lreq db f sL sI lp sg r n).pending = lp := by
  simp only [inflValid, Bool.and_eq_true] at hv
  obtain ⟨⟨h1, h2⟩, h3⟩ := hv
  have h2n : req.calculationData.isNone = false := by
    cases hcd : req.calculationData with
    | none => rw [hcd] at h2; simp at h2
    | some cd => simp
  have hdel : deliver t senderConfigs
      = ⟨false, 0 + senderConfigs.length, lastErrFrom t none senderConfigs,
         [] ++ senderConfigs⟩ :=
    deliverAux_all_fail t senderConfigs 0 none [] hall
  refine ⟨?_, ?_, ?_, ?_, ?_⟩
  · simp [inflationEmailHandler, h1, h2n, h3, hdel, pendingInsert]
  · simp [inflationEmailHandler, h1, h2n, h3, hdel, pendingInsert]
  · simp [inflationEmailHandler, h1, h2n, h3, hdel, pendingInsert]
  · simp [inflationEmailHandler, h1, h2n, h3, hdel, pendingInsert]
  · intro lreq db f sL sI lp sg r n
    cases hstep : leadIngestStep lreq db f sL sI n <;> simp [sendDealLead, hstep]

/-- Witness for C5 (amended): a concrete valid request with an
always-failing transport produces a queued row and a success response. -/
theorem delivery_exhaustion_enqueues_witness :
    (inflationEmailHandler ⟨some "Jo", some "a@b.com", some "100", some "1",
        some "2000", none, some ⟨some "100", some "150", some "50", some "50.00"⟩⟩
        true (fun _ => Except.error ⟨401, "unauthorized"⟩) true false ⟨[], 1⟩
        2025 0).pending.rows.length = (⟨[], 1⟩ : PendingState).rows.length + 1 ∧
    (inflationEmailHandler ⟨some "Jo", some "a@b.com", some "100", some "1",
        some "2000", none, some ⟨some "100", some "150", some "50", some "50.00"⟩⟩
        true (fun _ => Except.error ⟨401, "unauthorized"⟩) true false ⟨[], 1⟩
        2025 0).resp.success = true ∧
    (inflationEmailHandler ⟨some "Jo", some "a@b.com", some "100", some "1",
        some "2000", none, some ⟨some "100", some "150", some "50", some "50.00"⟩⟩
        true (fun _ => Except.error ⟨401, "unauthorized"⟩) true false ⟨[], 1⟩
        2025 0).resp.emailSent = false ∧
    (inflationEmailHandler ⟨some "Jo", some "a@b.com", some "100", some "1",
        some "2000", none, some ⟨some "100", some "150", some "50", some "50.00"⟩⟩
        true (fun _ => Except.error ⟨401, "unauthorized"⟩) true false ⟨[], 1⟩
        2025 0).resp.emailStored = true := by
  have h := delivery_exhaustion_enqueues
    ⟨some "Jo", some "a@b.com", some "100", some "1", some "2000", none,
      some ⟨some "100", some "150", some "50", some "50.00"⟩⟩
    (fun _ => Except.error ⟨401, "unauthorized"⟩) ⟨[], 1⟩ 2025 0
    (by decide) (by decide)
  exact ⟨h.1, h.2.1, h.2.2.1, h.2.2.2.1⟩

/-! ## Claim C6 (enqueue stores pending/0-attempts row; operation succeeds) -/

/-- C6: when every sender fails, the queued row appended to
`pending_emails` has `status = "pending"`, `attempts = 0` (the column
default), no `sentAt`, and the supplied serialized last transport error;
the user-facing response still reports success with `emailStored = true`
and `emailSent = false`.  The enqueue insert itself can only fail with
`storeUnavailable`. -/
theorem retry_enqueue_row (req : InflReq)
    (t : SenderConfig → Except TransportErr Unit) (p : PendingState)
    (y now : Nat) (hv : inflValid req = true)
    (hall : ∀ c ∈ senderConfigs, okB (t c) = false) :
    (inflationEmailHandler req true t true false p y now).pending.rows
      = p.rows ++ [⟨p.nextId, jsTrim (req.email.getD ""),
          some (jsOrStr req.name "User"), inflationSubject,
          emailContent req y, "inflation_report", "pending",
          some (match lastErrFrom t none senderConfigs with
            | some err => errJson err
            | none => "SendGrid configuration issue"), 0, now, none⟩] ∧
    (inflationEmailHandler req true t true false p y now).resp
      = ⟨200, true, false, true, some (jsTrim (req.email.getD "")),
         lastErrFrom t none senderConfigs⟩ ∧
    (∀ (f : Bool) (st : PendingState) (re : String) (rn : Option String)
       (su hc et stt : String) (ed : Option String) (n : Nat) (e : StoreErr),
       pendingInsert f st re rn su hc et stt ed n = .error e →
       e = .storeUnavailable) := by
  simp only [inflValid, Bool.and_eq_true] at hv
  obtain ⟨⟨h1, h2⟩, h3⟩ := hv
  have h2n : req.calculationData.isNone = false := by
    cases hcd : req.calculationData with
    | none => rw [hcd] at h2; simp at h2
    | some cd => simp
  have hdel : deliver t senderConfigs
      = ⟨false, 0 + senderConfigs.length, lastErrFrom t none senderConfigs,
         [] ++ senderConfigs⟩ :=
    deliverAux_all_fail t senderConfigs 0 none [] hall
  refine ⟨?_, ?_, ?_⟩
  · simp [inflationEmailHandler, h1, h2n, h3, hdel, pendingInsert]
  · simp [inflationEmailHandler, h1, h2n, h3, hdel, pendingInsert]
  · intro f st re rn su hc et stt ed n e h
    cases f
    · simp [pendingInsert] at h
    · simp [pendingInsert] at h
      exact h.symm

/-- Witness for C6: the concrete queued row for a valid request whose
transport always fails with a 401 error. -/
theorem retry_enqueue_row_witness :
    (inflationEmailHandler ⟨some "Jo", some "a@b.com", some "100", some "1",
        some "2000", none, some ⟨some "100", some "150", some "50", some "50.00"⟩⟩
        true (fun _ => Except.error ⟨401, "unauthorized"⟩) true false ⟨[], 1⟩
        2025 7).pending.rows
      = [⟨1, "a@b.com", some "Jo", inflationSubject,
          emailContent ⟨some "Jo", some "a@b.com", some "100", some "1",
            some "2000", none,
            some ⟨some "100", some "150", some "50", some "50.00"⟩⟩ 2025,
          "inflation_report", "pending", some (errJson ⟨401, "unauthorized"⟩),
          0, 7, none⟩] ∧
    (inflationEmailHandler ⟨some "Jo", some "a@b.com", some "100", some "1",
        some "2000", none, some ⟨some "100", some "150", some "50", some "50.00"⟩⟩
        true (fun _ => Except.error ⟨401, "unauthorized"⟩) true false ⟨[], 1⟩
        2025 7).resp
      = ⟨200, true, false, true, some "a@b.com", some ⟨401, "unauthorized"⟩⟩ := by
  have h := retry_enqueue_row
    ⟨some "Jo", some "a@b.com", some "100", some "1", some "2000", none,
      some ⟨some "100", some "150", some "50", some "50.00"⟩⟩
    (fun _ => Except.error ⟨401, "unauthorized"⟩) ⟨[], 1⟩ 2025 7
    (by decide) (by decide)
  refine ⟨?_, ?_⟩
  · rw [h.1]
    simp [jsTrim, jsOrStr, lastErrFrom, errOf, senderConfigs]
  · rw [h.2.1]
    simp [jsTrim, lastErrFrom, errOf, senderConfigs]

/-! ## Claim C7 (composite-key upsert) -/

lemma map_progUpd_id (u m : String) (completed : String)
    (score timeSpent : Option String) (now : Nat) (rows : List ProgRow)
    (h : rows.filter (progMatches u m) = []) :
    rows.map (fun r => if progMatches u m r then
      { r with completed := completed, score := score,
               timeSpent := timeSpent, updatedAt := now } else r) = rows := by
  induction rows with
  | nil => rfl
  | cons a l ih =>
    by_cases hp : progMatches u m a
    · simp [List.filter_cons, hp] at h
    · simp only [List.filter_cons, hp, if_false] at h
      simp [hp, ih h]

/-- C7: the keyed upserter.  Starting from a state with no row for the
composite key `(u, m)`, the first call inserts a new row and the second
call with a different payload overwrites that same row in place: both
calls succeed (absence never yields a not-found error), both rows carry
the identifier assigned by the first insert, the update bumps `updatedAt`
to the second call time while keeping `createdAt`, and a read after the
second call sees only the latest payload. -/
theorem upsert_composite_key (st : ProgState) (u m : String)
    (req1 req2 : ProgReq) (now1 now2 : Nat)
    (hu : u ≠ "") (hm : m ≠ "")
    (h1u : req1.userId = some u) (h1m : req1.moduleId = some m)
    (h2u : req2.userId = some u) (h2m : req2.moduleId = some m)
    (h0 : progSelect st u m = []) :
    (learningProgressPost req1 true st now1).1
      = ⟨201, true, some ⟨st.nextId, u, m, jsOrStr req1.completed "false",
          jsOrNull req1.score, jsOrNull req1.timeSpent, now1, now1⟩⟩ ∧
    (learningProgressPost req1 true st now1).2
      = ⟨st.rows ++ [⟨st.nextId, u, m, jsOrStr req1.completed "false",
          jsOrNull req1.score, jsOrNull req1.timeSpent, now1, now1⟩],
         st.nextId + 1⟩ ∧
    (learningProgressPost req2 true
        (learningProgressPost req1 true st now1).2 now2).1
      = ⟨201, true, some ⟨st.nextId, u, m, jsOrStr req2.completed "false",
          jsOrNull req2.score, jsOrNull req2.timeSpent, now1, now2⟩⟩ ∧
    (learningProgressPost req2 true
        (learningProgressPost req1 true st now1).2 now2).2
      = ⟨st.rows ++ [⟨st.nextId, u, m, jsOrStr req2.completed "false",
          jsOrNull req2.score, jsOrNull req2.timeSpent, now1, now2⟩],
         st.nextId + 1⟩ ∧
    progSelect (learningProgressPost req2 true
        (learningProgressPost req1 true st now1).2 now2).2 u m
      = [⟨st.nextId, u, m, jsOrStr req2.completed "false",
          jsOrNull req2.score, jsOrNull req2.timeSpent, now1, now2⟩] := by
  have hv1u : jsTruthy req1.userId = true := by simp [jsTruthy, h1u, hu]
  have hv1m : jsTruthy req1.moduleId = true := by simp [jsTruthy, h1m, hm]
  have hv2u : jsTruthy req2.userId = true := by simp [jsTruthy, h2u, hu]
  have hv2m : jsTruthy req2.moduleId = true := by simp [jsTruthy, h2m, hm]
  have hfilter : st.rows.filter (progMatches u m) = [] := h0
  have hc1 : learningProgressPost req1 true st now1
      = (⟨201, true, some ⟨st.nextId, u, m, jsOrStr req1.completed "false",
            jsOrNull req1.score, jsOrNull req1.timeSpent, now1, now1⟩⟩,
         ⟨st.rows ++ [⟨st.nextId, u, m, jsOrStr req1.completed "false",
            jsOrNull req1.score, jsOrNull req1.timeSpent, now1, now1⟩],
          st.nextId + 1⟩) := by
    simp [learningProgressPost, jsTruthy, hu, hm, h1u, h1m, h0]
  have hsel2 : progSelect ⟨st.rows ++ [⟨st.nextId, u, m,
        jsOrStr req1.completed "false", jsOrNull req1.score,
        jsOrNull req1.timeSpent, now1, now1⟩], st.nextId + 1⟩ u m
      = [⟨st.nextId, u, m, jsOrStr req1.completed "false",
          jsOrNull req1.score, jsOrNull req1.timeSpent, now1, now1⟩] := by
    simp only [progSelect, List.filter_append]
    rw [hfilter]
    simp [progMatches]
  have hupd : progUpdate ⟨st.rows ++ [⟨st.nextId, u, m,
        jsOrStr req1.completed "false", jsOrNull req1.score,
        jsOrNull req1.timeSpent, now1, now1⟩], st.nextId + 1⟩ u m
        (jsOrStr req2.completed "false") (jsOrNull req2.score)
        (jsOrNull req2.timeSpent) now2
      = (⟨st.rows ++ [⟨st.nextId, u, m, jsOrStr req2.completed "false",
            jsOrNull req2.score, jsOrNull req2.timeSpent, now1, now2⟩],
          st.nextId + 1⟩,
         [⟨st.nextId, u, m, jsOrStr req2.completed "false",
           jsOrNull req2.score, jsOrNull req2.timeSpent, now1, now2⟩]) := by
    unfold progUpdate
    simp only [List.map_append, List.map_cons, List.map_nil,
      List.filter_append]
    rw [map_progUpd_id u m _ _ _ _ st.rows hfilter]
    rw [hfilter]
    simp [progMatches]
  have hc2 : learningProgressPost req2 true ⟨st.rows ++ [⟨st.nextId, u, m,
        jsOrStr req1.completed "false", jsOrNull req1.score,
        jsOrNull req1.timeSpent, now1, now1⟩], st.nextId + 1⟩ now2
      = (⟨201, true, some ⟨st.nextId, u, m, jsOrStr req2.completed "false",
            jsOrNull req2.score, jsOrNull req2.timeSpent, now1, now2⟩⟩,
         ⟨st.rows ++ [⟨st.nextId, u, m, jsOrStr req2.completed "false",
            jsOrNull req2.score, jsOrNull req2.timeSpent, now1, now2⟩],
          st.nextId + 1⟩) := by
    simp [learningProgressPost, jsTruthy, hu, hm, h2u, h2m, hsel2, hupd]
  refine ⟨?_, ?_, ?_, ?_, ?_⟩
  · rw [hc1]
  · rw [hc1]
  · rw [hc1]; rw [hc2]
  · rw [hc1]; rw [hc2]
  · rw [hc1]; rw [hc2]
    simp only [progSelect, List.filter_append]
    rw [hfilter]
    simp [progMatches]

/-- Witness for C7: two concrete upserts for user `u1`, module `mod1`,
with different payloads. -/
theorem upsert_composite_key_witness :
    (learningProgressPost ⟨some "u1", some "mod1", some "false", some "70",
        some "300"⟩ true ⟨[], 1⟩ 10).1
      = ⟨201, true, some ⟨1, "u1", "mod1", "false", some "70", some "300",
          10, 10⟩⟩ ∧
    (learningProgressPost ⟨some "u1", some "mod1", some "true", some "95",
        some "600"⟩ true
        (learningProgressPost ⟨some "u1", some "mod1", some "false", some "70",
          some "300"⟩ true ⟨[], 1⟩ 10).2 20).1
      = ⟨201, true, some ⟨1, "u1", "mod1", "true", some "95", some "600",
          10, 20⟩⟩ ∧
    (learningProgressPost ⟨some "u1", some "mod1", some "true", some "95",
        some "600"⟩ true
        (learningProgressPost ⟨some "u1", some "mod1", some "false", some "70",
          some "300"⟩ true ⟨[], 1⟩ 10).2 20).2
      = ⟨[⟨1, "u1", "mod1", "true", some "95", some "600", 10, 20⟩], 2⟩ := by
  have h := upsert_composite_key ⟨[], 1⟩ "u1" "mod1"
    ⟨some "u1", some "mod1", some "false", some "70", some "300"⟩
    ⟨some "u1", some "mod1", some "true", some "95", some "600"⟩
    10 20 (by decide) (by decide) rfl rfl rfl rfl (by decide)
  refine ⟨?_, ?_, ?_⟩
  · rw [h.1]; decide
  · rw [h.2.2.1]; decide
  · rw [h.2.2.2.1]; decide

/-! ## Claim C8 (deterministic composition) -/

/-- Counterexample for C8: the rendered body embeds
`new Date().getFullYear()` in the copyright footer, so two calls with
byte-identical input data made in different calendar years produce
different bodies — `compose` is not a function of its `data` alone. -/
theorem compose_not_year_invariant :
    emailContent ⟨some "Jo", some "a@b.com", some "100", some "1", some "2000",
        none, some ⟨some "100", some "150", some "50", some "50.00"⟩⟩ 2025
      ≠ emailContent ⟨some "Jo", some "a@b.com", some "100", some "1",
        some "2000", none,
        some ⟨some "100", some "150", some "50", some "50.00"⟩⟩ 2026 := by
  intro h
  have h1 := congrArg String.data h
  simp only [emailContent, String.data_append] at h1
  have h2 := List.append_cancel_right h1
  have h3 := List.append_cancel_left h2
  exact absurd h3 (by decide)

/-- C8 (amended): composition is deterministic in the template inputs and
the current calendar year: two requests agreeing on `name`, `amount`,
`month`, `year`, `chartImage` and `calculationData` render byte-identical
bodies in the same calendar year (in particular the body does not depend
on the recipient email); only a change of the clock year changes the
output. -/
theorem compose_deterministic (r1 r2 : InflReq) (y : Nat)
    (hn : r1.name = r2.name) (ha : r1.amount = r2.amount)
    (hm : r1.month = r2.month) (hy : r1.year = r2.year)
    (hc : r1.chartImage = r2.chartImage)
    (hd : r1.calculationData = r2.calculationData) :
    emailContent r1 y = emailContent r2 y := by
  simp [emailContent, emailContentHead, hn, ha, hm, hy, hc, hd]

/-- Witness for C8 (amended): two concrete requests differing only in the
recipient email render byte-identical bodies. -/
theorem compose_deterministic_witness :
    emailContent ⟨some "Jo", some "a@b.com", some "100", some "1", some "2000",
        none, some ⟨some "100", some "150", some "50", some "50.00"⟩⟩ 2025
      = emailContent ⟨some "Jo", some "z@q.org", some "100", some "1",
        some "2000", none,
        some ⟨some "100", some "150", some "50", some "50.00"⟩⟩ 2025 :=
  compose_deterministic _ _ 2025 rfl rfl rfl rfl rfl rfl

/-! ## Claim C9 (validation exactly characterizes composition failure) -/

/-- Counterexample for C9: a request whose `calculationData` object is
present but lacks every numeric field (in particular the
percentage-increase value) passes validation and the operation succeeds —
the template renders the missing field as the text `undefined` instead of
rejecting the data with a validation error. -/
theorem incomplete_data_rendered :
    (inflationEmailHandler ⟨none, some "a@b.com", none, none, none, none,
        some ⟨none, none, none, none⟩⟩ true (fun _ => Except.ok ()) true false
        ⟨[], 1⟩ 2025 0).resp.status = 200 ∧
    (inflationEmailHandler ⟨none, some "a@b.com", none, none, none, none,
        some ⟨none, none, none, none⟩⟩ true (fun _ => Except.ok ()) true false
        ⟨[], 1⟩ 2025 0).resp.success = true ∧
    renderOpt (⟨none, none, none, none⟩ : CalcData).percentageIncrease
      = "undefined" := by decide

lemma infl_invalid_400 (req : InflReq) (sg : Bool)
    (t : SenderConfig → Except TransportErr Unit) (db fault : Bool)
    (p : PendingState) (y now : Nat) (hv : inflValid req = false) :
    inflationEmailHandler req sg t db fault p y now
      = ⟨⟨400, false, false, false, none, none⟩, p, []⟩ := by
  cases h1 : jsTruthy req.email with
  | false => simp [inflationEmailHandler, h1]
  | true =>
    cases h2 : req.calculationData with
    | none => simp [inflationEmailHandler, h2]
    | some cd =>
      have h3 : emailRegexTest (jsTrim (req.email.getD "")) = false := by
        rw [inflValid, h1, h2] at hv
        simpa using hv
      simp [inflationEmailHandler, h1, h2, h3]

/-- C9 (amended): the inflation-email operation fails exactly when its
request validation fails — recipient email absent or malformed, or the
`calculationData` object absent — and then with a 400 validation response;
for every validation-passing request it succeeds with status 200, whatever
the contents of `calculationData`: missing numeric fields inside it are
not a failure mode (the template renders them as the text `undefined`). -/
theorem compose_failure_modes (req : InflReq) (sg : Bool)
    (t : SenderConfig → Except TransportErr Unit) (db fault : Bool)
    (p : PendingState) (y now : Nat) :
    ((inflationEmailHandler req sg t db fault p y now).resp.success
      = inflValid req) ∧
    (inflValid req = false →
      inflationEmailHandler req sg t db fault p y now
        = ⟨⟨400, false, false, false, none, none⟩, p, []⟩) ∧
    (inflValid req = true →
      (inflationEmailHandler req sg t db fault p y now).resp.status = 200) := by
  refine ⟨?_, ?_, ?_⟩
  · by_cases hv : inflValid req = true
    · rw [hv]
      exact (infl_success req sg t db fault p y now hv).1
    · have hv2 : inflValid req = false := by
        cases h : inflValid req
        · rfl
        · exact absurd h hv
      rw [hv2, infl_invalid_400 req sg t db fault p y now hv2]
  · intro hv
    exact infl_invalid_400 req sg t db fault p y now hv
  · intro hv
    exact (infl_success req sg t db fault p y now hv).2

/-- Witness for C9 (amended): a malformed email yields the 400 validation
response; a valid request (even with empty calculation fields) yields
status 200. -/
theorem compose_failure_modes_witness :
    (inflationEmailHandler ⟨none, some "not-an-email", none, none, none, none,
        some ⟨none, none, none, none⟩⟩ true (fun _ => Except.ok ()) true false
        ⟨[], 1⟩ 2025 0)
      = ⟨⟨400, false, false, false, none, none⟩, ⟨[], 1⟩, []⟩ ∧
    (inflationEmailHandler ⟨some "Jo", some "a@b.com", some "100", some "1",
        some "2000", none, some ⟨some "100", some "150", some "50", some "50.00"⟩⟩
        true (fun _ => Except.ok ()) true false ⟨[], 1⟩ 2025 0).resp.status
      = 200 := by
  refine ⟨?_, ?_⟩
  · exact (compose_failure_modes ⟨none, some "not-an-email", none, none, none,
      none, some ⟨none, none, none, none⟩⟩ true (fun _ => Except.ok ()) true
      false ⟨[], 1⟩ 2025 0).2.1 (by decide)
  · exact (compose_failure_modes ⟨some "Jo", some "a@b.com", some "100",
      some "1", some "2000", none,
      some ⟨some "100", some "150", some "50", some "50.00"⟩⟩ true
      (fun _ => Except.ok ()) true false ⟨[], 1⟩ 2025 0).2.2 (by decide)

/-! ## Claim C10 (no transport credential: dropped but reported success) -/

/-- C10: with no SendGrid key configured, a valid inflation-email request
makes no transport attempt, creates no queued row, and leaves the
`pending_emails` table untouched, yet the response is success with
`emailSent = false` and `emailStored = false`: the notification is
silently dropped while the caller is told the operation succeeded. -/
theorem no_credential_drops_notification (req : InflReq)
    (t : SenderConfig → Except TransportErr Unit) (db fault : Bool)
    (p : PendingState) (y now : Nat) (hv : inflValid req = true) :
    inflationEmailHandler req false t db fault p y now
      = ⟨⟨200, true, false, false, some (jsTrim (req.email.getD "")), none⟩,
         p, []⟩ := by
  simp only [inflValid, Bool.and_eq_true] at hv
  obtain ⟨⟨h1, h2⟩, h3⟩ := hv
  have h2n : req.calculationData.isNone = false := by
    cases hcd : req.calculationData with
    | none => rw [hcd] at h2; simp at h2
    | some cd => simp
  simp [inflationEmailHandler, h1, h2n, h3]

/-- Witness for C10: a concrete valid request with SendGrid unconfigured. -/
theorem no_credential_drops_notification_witness :
    inflationEmailHandler ⟨some "Jo", some "a@b.com", some "100", some "1",
        some "2000", none, some ⟨some "100", some "150", some "50", some "50.00"⟩⟩
        false (fun _ => Except.ok ()) true false ⟨[], 1⟩ 2025 0
      = ⟨⟨200, true, false, false, some "a@b.com", none⟩, ⟨[], 1⟩, []⟩ := by
  rw [no_credential_drops_notification ⟨some "Jo", some "a@b.com", some "100",
    some "1", some "2000", none,
    some ⟨some "100", some "150", some "50", some "50.00"⟩⟩
    (fun _ => Except.ok ()) true false ⟨[], 1⟩ 2025 0 (by decide)]
  decide
